import Mathlib

/-!
Shallow embedding of the UK COVID-19 developer API Rust SDK
(src/lib.rs, src/structures.rs).

The Rust builder `Cov19api` holds two `HashMap<String, String>` fields
(`filters` and `structure`).  We model each map as an association list
with unique keys: `insert` overwrites the value in place when the key is
present and appends otherwise, which matches `HashMap::insert` up to
iteration order (the Rust iteration order is unspecified; claims about
the serialized URL are therefore stated for explicit orders).

Methods taking `&mut self` and returning `Result<(), E>` mutate only
after all validation checks, so they are embedded as
`Cov19api → Except ApiError Cov19api`; an `Except.error` result means
the builder was left unchanged.
-/

/-- Error kinds of `ApiErrorKind` in src/structures.rs. -/
inductive ApiErrorKind
  | InvalidFilter
  | InvalidFilterValue
  | InvalidStructure
  deriving DecidableEq, Repr

/-- Struct `ApiError` in src/structures.rs: a kind plus a message. -/
structure ApiError where
  kind : ApiErrorKind
  msg : String
  deriving DecidableEq, Repr

/-- Enum `Filters` in src/structures.rs: the valid filter names. -/
inductive Filters
  | areaType
  | areaName
  | areaCode
  | date
  deriving DecidableEq, Repr

namespace Filters

/-- Rust `format!("{:?}", f)` on a `Filters` value (derived Debug). -/
def debugFmt : Filters → String
  | .areaType => "areaType"
  | .areaName => "areaName"
  | .areaCode => "areaCode"
  | .date => "date"

/-- Declaration-order listing produced by `Filters::iter()` (strum EnumIter). -/
def iterList : List Filters := [.areaType, .areaName, .areaCode, .date]

/-- The Rust fn `Filters::to_vec`: the Debug string of every variant in order. -/
def to_vec : List String := Filters.iterList.map Filters.debugFmt

/-- The Rust fn `Filters::to_string`: pushes each Debug string onto one
String with no separator between them. -/
def to_string : String := Filters.iterList.foldl (fun acc f => acc ++ Filters.debugFmt f) ""

end Filters

/-- Enum `AreaType` in src/structures.rs: the valid areaType filter values. -/
inductive AreaType
  | overview
  | nation
  | region
  | nhsRegion
  | utla
  | ltla
  deriving DecidableEq, Repr

namespace AreaType

/-- Rust `format!("{:?}", a)` on an `AreaType` value (derived Debug). -/
def debugFmt : AreaType → String
  | .overview => "overview"
  | .nation => "nation"
  | .region => "region"
  | .nhsRegion => "nhsRegion"
  | .utla => "utla"
  | .ltla => "ltla"

/-- Declaration-order listing produced by `AreaType::iter()`. -/
def iterList : List AreaType := [.overview, .nation, .region, .nhsRegion, .utla, .ltla]

/-- The Rust fn `AreaType::to_vec`. -/
def to_vec : List String := AreaType.iterList.map AreaType.debugFmt

/-- The Rust fn `AreaType::to_string`: Debug strings concatenated with no separator. -/
def to_string : String := AreaType.iterList.foldl (fun acc a => acc ++ AreaType.debugFmt a) ""

end AreaType

/-- Enum `Structures` in src/structures.rs: the valid structure field names. -/
inductive Structures
  | areaType
  | areaName
  | areaCode
  | date
  | hash
  | newCasesByPublishDate
  | cumCasesByPublishDate
  | cumCasesBySpecimenDateRate
  | newCasesBySpecimenDate
  | maleCases
  | femaleCases
  | newPillarOneTestsByPublishDate
  | cumPillarOneTestsByPublishDate
  | newPillarTwoTestsByPublishDate
  | cumPillarTwoTestsByPublishDate
  | newPillarThreeTestsByPublishDate
  | cumPillarThreeTestsByPublishDate
  | newPillarFourTestsByPublishDate
  | cumPillarFourTestsByPublishDate
  | newAdmissions
  | cumAdmissions
  | cumAdmissionsByAge
  | newTestsByPublishDate
  | cumTestsByPublishDate
  | covidOccupiedMVBeds
  | hospitalCases
  | plannedCapacityByPublishDate
  | newDeaths28DaysByPublishDate
  | cumDeaths28DaysByPublishDate
  | cumDeaths28DaysByPublishDateRate
  | newDeaths28DaysByDeathDate
  | cumDeaths28DaysByDeathDate
  | cumDeaths28DaysByDeathDateRate
  deriving DecidableEq, Repr

namespace Structures

/-- Rust `format!("{:?}", s)` on a `Structures` value (derived Debug). -/
def debugFmt : Structures → String
  | .areaType => "areaType"
  | .areaName => "areaName"
  | .areaCode => "areaCode"
  | .date => "date"
  | .hash => "hash"
  | .newCasesByPublishDate => "newCasesByPublishDate"
  | .cumCasesByPublishDate => "cumCasesByPublishDate"
  | .cumCasesBySpecimenDateRate => "cumCasesBySpecimenDateRate"
  | .newCasesBySpecimenDate => "newCasesBySpecimenDate"
  | .maleCases => "maleCases"
  | .femaleCases => "femaleCases"
  | .newPillarOneTestsByPublishDate => "newPillarOneTestsByPublishDate"
  | .cumPillarOneTestsByPublishDate => "cumPillarOneTestsByPublishDate"
  | .newPillarTwoTestsByPublishDate => "newPillarTwoTestsByPublishDate"
  | .cumPillarTwoTestsByPublishDate => "cumPillarTwoTestsByPublishDate"
  | .newPillarThreeTestsByPublishDate => "newPillarThreeTestsByPublishDate"
  | .cumPillarThreeTestsByPublishDate => "cumPillarThreeTestsByPublishDate"
  | .newPillarFourTestsByPublishDate => "newPillarFourTestsByPublishDate"
  | .cumPillarFourTestsByPublishDate => "cumPillarFourTestsByPublishDate"
  | .newAdmissions => "newAdmissions"
  | .cumAdmissions => "cumAdmissions"
  | .cumAdmissionsByAge => "cumAdmissionsByAge"
  | .newTestsByPublishDate => "newTestsByPublishDate"
  | .cumTestsByPublishDate => "cumTestsByPublishDate"
  | .covidOccupiedMVBeds => "covidOccupiedMVBeds"
  | .hospitalCases => "hospitalCases"
  | .plannedCapacityByPublishDate => "plannedCapacityByPublishDate"
  | .newDeaths28DaysByPublishDate => "newDeaths28DaysByPublishDate"
  | .cumDeaths28DaysByPublishDate => "cumDeaths28DaysByPublishDate"
  | .cumDeaths28DaysByPublishDateRate => "cumDeaths28DaysByPublishDateRate"
  | .newDeaths28DaysByDeathDate => "newDeaths28DaysByDeathDate"
  | .cumDeaths28DaysByDeathDate => "cumDeaths28DaysByDeathDate"
  | .cumDeaths28DaysByDeathDateRate => "cumDeaths28DaysByDeathDateRate"

/-- Declaration-order listing produced by `Structures::iter()`. -/
def iterList : List Structures :=
  [.areaType, .areaName, .areaCode, .date, .hash,
   .newCasesByPublishDate, .cumCasesByPublishDate, .cumCasesBySpecimenDateRate,
   .newCasesBySpecimenDate, .maleCases, .femaleCases,
   .newPillarOneTestsByPublishDate, .cumPillarOneTestsByPublishDate,
   .newPillarTwoTestsByPublishDate, .cumPillarTwoTestsByPublishDate,
   .newPillarThreeTestsByPublishDate, .cumPillarThreeTestsByPublishDate,
   .newPillarFourTestsByPublishDate, .cumPillarFourTestsByPublishDate,
   .newAdmissions, .cumAdmissions, .cumAdmissionsByAge,
   .newTestsByPublishDate, .cumTestsByPublishDate,
   .covidOccupiedMVBeds, .hospitalCases, .plannedCapacityByPublishDate,
   .newDeaths28DaysByPublishDate, .cumDeaths28DaysByPublishDate,
   .cumDeaths28DaysByPublishDateRate, .newDeaths28DaysByDeathDate,
   .cumDeaths28DaysByDeathDate, .cumDeaths28DaysByDeathDateRate]

/-- The Rust fn `Structures::to_vec`. -/
def to_vec : List String := Structures.iterList.map Structures.debugFmt

/-- The Rust fn `Structures::to_string`: each Debug string followed by a
newline, concatenated in order. -/
def to_string : String :=
  Structures.iterList.foldl (fun acc s => acc ++ Structures.debugFmt s ++ "\n") ""

end Structures

/-- Rust `format!("{:?}", s)` applied to a `String` value: the Debug
formatting wraps the string in double quotes (none of the strings it is
applied to in this code contain characters Debug would escape). -/
def rustDebugString (s : String) : String := "\"" ++ s ++ "\""

/-- Splits a character list at every dash character, mirroring the
group boundaries of the anchored date regex in src/lib.rs. -/
def splitDash : List Char → List (List Char)
  | [] => [[]]
  | c :: rest =>
    if c = '-' then [] :: splitDash rest
    else
      match splitDash rest with
      | [] => [[c]]
      | g :: gs => (c :: g) :: gs

/-- The month group `(0?[1-9]|1[012])` of the date regex. -/
def monthMatch : List Char → Bool
  | [c] => '1' ≤ c && c ≤ '9'
  | [c1, c2] =>
    (c1 = '0' && '1' ≤ c2 && c2 ≤ '9') || (c1 = '1' && (c2 = '0' || c2 = '1' || c2 = '2'))
  | _ => false

/-- The day group `(0?[1-9]|[12][0-9]|3[01])` of the date regex. -/
def dayMatch : List Char → Bool
  | [c] => '1' ≤ c && c ≤ '9'
  | [c1, c2] =>
    (c1 = '0' && '1' ≤ c2 && c2 ≤ '9') || ((c1 = '1' || c1 = '2') && c2.isDigit)
      || (c1 = '3' && (c2 = '0' || c2 = '1'))
  | _ => false

/-- `Regex::new(r"^\d\x7b4\x7d\-(0?[1-9]|1[012])\-(0?[1-9]|[12][0-9]|3[01])$").is_match(v)`
from src/lib.rs: an anchored match of a 4-digit year, a dash, the month
group, a dash, and the day group.  Since neither group can contain a
dash, the match holds exactly when splitting on dashes yields three
groups of the right shapes. -/
def dateRegexMatch (v : String) : Bool :=
  match splitDash v.toList with
  | [y, m, d] => y.length = 4 && y.all Char.isDigit && monthMatch m && dayMatch d
  | _ => false

/-- The builder struct `Cov19api` from src/lib.rs, without the opaque
reqwest client handle.  `structureMap` stands for the Rust field named
`structure` (a Lean keyword). -/
structure Cov19api where
  filters : List (String × String)
  structureMap : List (String × String)
  deriving DecidableEq, Repr

/-- `HashMap::insert`: overwrite in place when the key is present,
otherwise add the pair. -/
def hmInsert : List (String × String) → String → String → List (String × String)
  | [], k, v => [(k, v)]
  | (k1, v1) :: rest, k, v =>
    if k1 = k then (k, v) :: rest else (k1, v1) :: hmInsert rest k v

/-- `HashMap::get`-style lookup on the association-list model. -/
def hmLookup : List (String × String) → String → Option String
  | [], _ => none
  | (k1, v1) :: rest, k => if k1 = k then some v1 else hmLookup rest k

namespace Cov19api

/-- `Cov19api::new` / `Cov19api::default`: both maps start empty. -/
def new : Cov19api := { filters := [], structureMap := [] }

/-- The Rust fn `Cov19api::clear`: empties both maps. -/
def clear (api : Cov19api) : Cov19api := { api with filters := [], structureMap := [] }

/-- The error message built for an unknown filter name in `set_filter_string`. -/
def invalidFilterMsg : String :=
  "Invalid filter name provided!\nNeeds to be one of: " ++ Filters.to_string

/-- The error message built for an invalid areaType value: the code
formats `AreaType::to_string()` (a `String`) with `\x7b:?\x7d`. -/
def invalidAreaTypeMsg : String :=
  "Invalid area type provided!\nNeeds to be one of: " ++ rustDebugString AreaType.to_string

/-- The error message built when the date check fires. -/
def invalidDateMsg : String :=
  "Invalid date provided!\nNeeds to be in the format YYYY-MM-DD"

/-- The error message built for an unknown structure name. -/
def invalidStructureMsg : String :=
  "Invalid structure name provided!\nNeeds to be one of: " ++ Structures.to_string

/-- The Rust fn `Cov19api::set_filter_string` (src/lib.rs lines 60-99):
rejects unknown filter names, rejects areaType values outside the
AreaType set, runs the date regex check as written in the source (note
the source errors when the regex DOES match), and otherwise inserts the
pair. -/
def set_filter_string (api : Cov19api) (filter_name filter_value : String) :
    Except ApiError Cov19api :=
  if (Filters.to_vec.contains filter_name) = false then
    .error { kind := .InvalidFilter, msg := invalidFilterMsg }
  else if filter_name = "areaType" ∧ (AreaType.to_vec.contains filter_value) = false then
    .error { kind := .InvalidFilterValue, msg := invalidAreaTypeMsg }
  else if filter_name = "date" ∧ dateRegexMatch filter_value = true then
    .error { kind := .InvalidFilterValue, msg := invalidDateMsg }
  else
    .ok { api with filters := hmInsert api.filters filter_name filter_value }

/-- The Rust fn `Cov19api::set_filter_enum` (src/lib.rs lines 105-135):
same value checks keyed on the enum, inserting the Debug string of the
variant. -/
def set_filter_enum (api : Cov19api) (filter_name : Filters) (filter_value : String) :
    Except ApiError Cov19api :=
  if filter_name = Filters.areaType ∧ (AreaType.to_vec.contains filter_value) = false then
    .error { kind := .InvalidFilterValue, msg := invalidAreaTypeMsg }
  else if filter_name = Filters.date ∧ dateRegexMatch filter_value = true then
    .error { kind := .InvalidFilterValue, msg := invalidDateMsg }
  else
    .ok { api with filters := hmInsert api.filters (Filters.debugFmt filter_name) filter_value }

/-- The Rust fn `Cov19api::set_structure_string_rename` (src/lib.rs
lines 149-167): rejects unknown structure names, otherwise inserts
name -> alias. -/
def set_structure_string_rename (api : Cov19api) (structure_name return_name : String) :
    Except ApiError Cov19api :=
  if (Structures.to_vec.contains structure_name) = false then
    .error { kind := .InvalidStructure, msg := invalidStructureMsg }
  else
    .ok { api with structureMap := hmInsert api.structureMap structure_name return_name }

/-- The Rust fn `Cov19api::set_structure_string` (src/lib.rs lines
141-143): calls the rename variant with the name as its own alias and
DISCARDS the returned `Result` — the Rust fn returns `()`, so on a
validation error the builder is simply left unchanged and no error
reaches the caller. -/
def set_structure_string (api : Cov19api) (structure_name : String) : Cov19api :=
  match set_structure_string_rename api structure_name structure_name with
  | .ok api2 => api2
  | .error _ => api

/-- The Rust fn `Cov19api::set_structure_enum` (src/lib.rs lines
171-180): inserts the Debug string of the variant as both name and
alias, with no checks; always returns Ok. -/
def set_structure_enum (api : Cov19api) (structure_name : Structures) :
    Except ApiError Cov19api :=
  let key := Structures.debugFmt structure_name
  .ok { api with structureMap := hmInsert api.structureMap key key }

end Cov19api

/-- The constant `ENDPOINT` from src/lib.rs. -/
def ENDPOINT : String := "https://api.coronavirus.data.gov.uk/v1/data"

/-- The filters loop of `send_request`: `name=value` pairs joined by a
semicolon, no trailing separator (the source appends `;` after every
pair except the last, tracked with an index). -/
def filtersSegment : List (String × String) → String
  | [] => ""
  | [p] => p.1 ++ "=" ++ p.2
  | p :: rest => p.1 ++ "=" ++ p.2 ++ ";" ++ filtersSegment rest

/-- The structure loop of `send_request`: `"name":"alias"` pairs joined
by a comma, no trailing separator. -/
def structureSegment : List (String × String) → String
  | [] => ""
  | [p] => "\"" ++ p.1 ++ "\":\"" ++ p.2 ++ "\""
  | p :: rest => "\"" ++ p.1 ++ "\":\"" ++ p.2 ++ "\"" ++ "," ++ structureSegment rest

/-- The URL building part of `Cov19api::send_request` (src/lib.rs lines
182-215), as a pure function of the two maps in iteration order: the
endpoint, then `?filters=...` if filters is non-empty, then the
structure object prefixed with `?` when filters was empty and `&`
otherwise, then the fixed suffix. -/
def buildUrl (filters structureMap : List (String × String)) : String :=
  let url1 := if filters.isEmpty then ENDPOINT
    else ENDPOINT ++ "?filters=" ++ filtersSegment filters
  let url2 := if structureMap.isEmpty then url1
    else url1 ++ (if filters.isEmpty then "?" else "&") ++ "structure=\x7b"
      ++ structureSegment structureMap ++ "\x7d"
  url2 ++ "&format=json" ++ "&page=1"

/-- Number of entries of the map carrying a given key. -/
def countKey (m : List (String × String)) (k : String) : Nat :=
  (m.filter (fun p => p.1 = k)).length

/-- One mutation operation of the builder, as exposed by src/lib.rs. -/
inductive Op
  | setFilterString (n v : String)
  | setFilterEnum (f : Filters) (v : String)
  | setStructureString (n : String)
  | setStructureRename (n a : String)
  | setStructureEnum (s : Structures)
  | opClear

/-- Running one operation on the builder; a validation error leaves the
builder unchanged (the Rust methods return before mutating on every
error path). -/
def applyOp (api : Cov19api) : Op → Cov19api
  | .setFilterString n v =>
    match api.set_filter_string n v with
    | .ok api2 => api2
    | .error _ => api
  | .setFilterEnum f v =>
    match api.set_filter_enum f v with
    | .ok api2 => api2
    | .error _ => api
  | .setStructureString n => api.set_structure_string n
  | .setStructureRename n a =>
    match api.set_structure_string_rename n a with
    | .ok api2 => api2
    | .error _ => api
  | .setStructureEnum s =>
    match api.set_structure_enum s with
    | .ok api2 => api2
    | .error _ => api
  | .opClear => api.clear

/-- The state invariant of the spec: filter keys come from the Filters
set, structure keys from the Structures set, and the value under
areaType, if any, from the AreaType set. -/
def builderInv (api : Cov19api) : Prop :=
  (∀ p ∈ api.filters, p.1 ∈ Filters.to_vec) ∧
  (∀ p ∈ api.structureMap, p.1 ∈ Structures.to_vec) ∧
  (∀ v, hmLookup api.filters "areaType" = some v → v ∈ AreaType.to_vec)

/-- Builder states reachable from a fresh builder by the exposed
mutation operations. -/
inductive Reachable : Cov19api → Prop
  | base : Reachable Cov19api.new
  | step (api : Cov19api) (o : Op) : Reachable api → Reachable (applyOp api o)

theorem mem_hmInsert {m : List (String × String)} {k v : String} {p : String × String}
    (h : p ∈ hmInsert m k v) : p = (k, v) ∨ p ∈ m := by
  induction m with
  | nil => simpa [hmInsert] using h
  | cons hd tl ih =>
    obtain ⟨k1, v1⟩ := hd
    rw [hmInsert] at h
    split at h
    · rcases List.mem_cons.mp h with h2 | h2
      · exact Or.inl h2
      · exact Or.inr (List.mem_cons_of_mem _ h2)
    · rcases List.mem_cons.mp h with h2 | h2
      · exact Or.inr (by simp [h2])
      · rcases ih h2 with h3 | h3
        · exact Or.inl h3
        · exact Or.inr (List.mem_cons_of_mem _ h3)

theorem hmLookup_hmInsert_self (m : List (String × String)) (k v : String) :
    hmLookup (hmInsert m k v) k = some v := by
  induction m with
  | nil => simp [hmInsert, hmLookup]
  | cons hd tl ih =>
    obtain ⟨k1, v1⟩ := hd
    by_cases hk : k1 = k <;> simp [hmInsert, hmLookup, hk, ih]

theorem hmLookup_hmInsert_ne (m : List (String × String)) (k v k2 : String) (h : k ≠ k2) :
    hmLookup (hmInsert m k v) k2 = hmLookup m k2 := by
  induction m with
  | nil => simp [hmInsert, hmLookup, h]
  | cons hd tl ih =>
    obtain ⟨k1, v1⟩ := hd
    by_cases hk : k1 = k
    · subst hk
      simp [hmInsert, hmLookup, h]
    · simp [hmInsert, hmLookup, hk, ih]

theorem countKey_cons (k1 v1 : String) (tl : List (String × String)) (k : String) :
    countKey ((k1, v1) :: tl) k = (if k1 = k then 1 else 0) + countKey tl k := by
  by_cases hk : k1 = k <;> simp [countKey, List.filter_cons, hk, Nat.add_comm]

theorem countKey_hmInsert (m : List (String × String)) (k v : String)
    (h : countKey m k ≤ 1) : countKey (hmInsert m k v) k = 1 := by
  induction m with
  | nil => simp [hmInsert, countKey]
  | cons hd tl ih =>
    obtain ⟨k1, v1⟩ := hd
    rw [countKey_cons] at h
    by_cases hk : k1 = k
    · rw [hmInsert, if_pos hk, countKey_cons, if_pos rfl]
      rw [if_pos hk] at h
      omega
    · rw [hmInsert, if_neg hk, countKey_cons, if_neg hk]
      rw [if_neg hk] at h
      have h2 := ih (by omega)
      omega

theorem contains_true_mem {l : List String} {s : String} (h : l.contains s = true) : s ∈ l := by
  simpa using h

theorem debugFmt_mem_filters (f : Filters) : Filters.debugFmt f ∈ Filters.to_vec := by
  cases f <;> decide

theorem debugFmt_mem_structures (s : Structures) :
    Structures.debugFmt s ∈ Structures.to_vec := by
  cases s <;> decide

theorem debugFmt_eq_areaType_iff (f : Filters) :
    Filters.debugFmt f = "areaType" ↔ f = Filters.areaType := by
  cases f <;> decide

/-- Characterization of a successful `set_filter_string` call: the pair
was inserted, the name was a valid filter name, and an areaType value
passed the AreaType membership check. -/
theorem set_filter_string_ok {api api2 : Cov19api} {n v : String}
    (h : api.set_filter_string n v = .ok api2) :
    api2 = { api with filters := hmInsert api.filters n v } ∧
      Filters.to_vec.contains n = true ∧
      (n = "areaType" → AreaType.to_vec.contains v = true) := by
  unfold Cov19api.set_filter_string at h
  split at h
  · exact absurd h (by simp)
  · rename_i h1
    split at h
    · exact absurd h (by simp)
    · rename_i h2
      split at h
      · exact absurd h (by simp)
      · refine ⟨by injection h with h4; exact h4.symm, ?_, ?_⟩
        · cases hc : Filters.to_vec.contains n
          · exact absurd hc h1
          · rfl
        · intro hn
          by_cases hv : AreaType.to_vec.contains v = true
          · exact hv
          · exact absurd ⟨hn, by simpa using hv⟩ h2

/-- Characterization of a successful `set_filter_enum` call. -/
theorem set_filter_enum_ok {api api2 : Cov19api} {f : Filters} {v : String}
    (h : api.set_filter_enum f v = .ok api2) :
    api2 = { api with filters := hmInsert api.filters (Filters.debugFmt f) v } ∧
      (f = Filters.areaType → AreaType.to_vec.contains v = true) := by
  unfold Cov19api.set_filter_enum at h
  split at h
  · exact absurd h (by simp)
  · rename_i h1
    split at h
    · exact absurd h (by simp)
    · refine ⟨by injection h with h4; exact h4.symm, ?_⟩
      intro hf
      by_cases hv : AreaType.to_vec.contains v = true
      · exact hv
      · exact absurd ⟨hf, by simpa using hv⟩ h1

/-- Characterization of a successful `set_structure_string_rename` call. -/
theorem set_structure_rename_ok {api api2 : Cov19api} {n a : String}
    (h : api.set_structure_string_rename n a = .ok api2) :
    api2 = { api with structureMap := hmInsert api.structureMap n a } ∧
      Structures.to_vec.contains n = true := by
  unfold Cov19api.set_structure_string_rename at h
  split at h
  · exact absurd h (by simp)
  · rename_i h1
    refine ⟨by injection h with h4; exact h4.symm, ?_⟩
    cases hc : Structures.to_vec.contains n
    · exact absurd hc h1
    · rfl

theorem builderInv_applyOp (api : Cov19api) (o : Op) (h : builderInv api) :
    builderInv (applyOp api o) := by
  obtain ⟨hf, hs, ha⟩ := h
  cases o with
  | setFilterString n v =>
    cases heq : api.set_filter_string n v with
    | error e =>
      simp only [applyOp, heq]
      exact ⟨hf, hs, ha⟩
    | ok api2 =>
      obtain ⟨h2, hn, hv⟩ := set_filter_string_ok heq
      subst h2
      simp only [applyOp, heq]
      refine ⟨?_, hs, ?_⟩
      · intro p hp
        rcases mem_hmInsert hp with h3 | h3
        · rw [h3]
          exact contains_true_mem hn
        · exact hf p h3
      · intro v2 hv2
        by_cases hn2 : n = "areaType"
        · subst hn2
          rw [hmLookup_hmInsert_self] at hv2
          injection hv2 with hv3
          rw [← hv3]
          exact contains_true_mem (hv rfl)
        · rw [hmLookup_hmInsert_ne _ _ _ _ hn2] at hv2
          exact ha v2 hv2
  | setFilterEnum f v =>
    cases heq : api.set_filter_enum f v with
    | error e =>
      simp only [applyOp, heq]
      exact ⟨hf, hs, ha⟩
    | ok api2 =>
      obtain ⟨h2, hv⟩ := set_filter_enum_ok heq
      subst h2
      simp only [applyOp, heq]
      refine ⟨?_, hs, ?_⟩
      · intro p hp
        rcases mem_hmInsert hp with h3 | h3
        · rw [h3]
          exact debugFmt_mem_filters f
        · exact hf p h3
      · intro v2 hv2
        by_cases hn2 : Filters.debugFmt f = "areaType"
        · rw [hn2, hmLookup_hmInsert_self] at hv2
          injection hv2 with hv3
          rw [← hv3]
          exact contains_true_mem (hv ((debugFmt_eq_areaType_iff f).mp hn2))
        · rw [hmLookup_hmInsert_ne _ _ _ _ hn2] at hv2
          exact ha v2 hv2
  | setStructureString n =>
    cases heq : api.set_structure_string_rename n n with
    | error e =>
      simp only [applyOp, Cov19api.set_structure_string, heq]
      exact ⟨hf, hs, ha⟩
    | ok api2 =>
      obtain ⟨h2, hn⟩ := set_structure_rename_ok heq
      subst h2
      simp only [applyOp, Cov19api.set_structure_string, heq]
      refine ⟨hf, ?_, ha⟩
      intro p hp
      rcases mem_hmInsert hp with h3 | h3
      · rw [h3]
        exact contains_true_mem hn
      · exact hs p h3
  | setStructureRename n a =>
    cases heq : api.set_structure_string_rename n a with
    | error e =>
      simp only [applyOp, heq]
      exact ⟨hf, hs, ha⟩
    | ok api2 =>
      obtain ⟨h2, hn⟩ := set_structure_rename_ok heq
      subst h2
      simp only [applyOp, heq]
      refine ⟨hf, ?_, ha⟩
      intro p hp
      rcases mem_hmInsert hp with h3 | h3
      · rw [h3]
        exact contains_true_mem hn
      · exact hs p h3
  | setStructureEnum s =>
    simp only [applyOp, Cov19api.set_structure_enum]
    refine ⟨hf, ?_, ha⟩
    intro p hp
    rcases mem_hmInsert hp with h3 | h3
    · rw [h3]
      exact debugFmt_mem_structures s
    · exact hs p h3
  | opClear =>
    refine ⟨?_, ?_, ?_⟩ <;> simp [applyOp, Cov19api.clear, hmLookup]

example : dateRegexMatch "2020-09-12" = true := by decide
example : dateRegexMatch "2020-9-1" = true := by decide
example : dateRegexMatch "garbage" = false := by decide
example : dateRegexMatch "2020-13-01" = false := by decide
example : dateRegexMatch "2020-12-32" = false := by decide
example : dateRegexMatch "2020-09-12-" = false := by decide
example : Filters.to_string = "areaTypeareaNameareaCodedate" := by decide
example :
    buildUrl [] [] = "https://api.coronavirus.data.gov.uk/v1/data&format=json&page=1" := by
  decide

/-- Claim C1: the spec says `set_filter("date", v)` fails with
`InvalidFilterValue` exactly when `v` does NOT match the date pattern,
and succeeds (inserting date -> v) when it matches.  The code does the
opposite: the condition at src/lib.rs line 89 errors when the regex DOES
match, so the well-formed date "2020-09-12" is rejected (with a message
claiming it is not in the YYYY-MM-DD format) while "garbage" is accepted
and inserted.  This evaluates the embedded code at both inputs. -/
theorem C1_date_check_inverted :
    dateRegexMatch "2020-09-12" = true ∧
    Cov19api.new.set_filter_string "date" "2020-09-12" =
      Except.error { kind := ApiErrorKind.InvalidFilterValue, msg := Cov19api.invalidDateMsg } ∧
    dateRegexMatch "garbage" = false ∧
    Cov19api.new.set_filter_string "date" "garbage" =
      Except.ok { filters := [("date", "garbage")], structureMap := [] } :=
  ⟨rfl, rfl, rfl, rfl⟩

/-- Claim C2: for every name outside the Filters closed set and every
value, `set_filter_string` fails with kind `InvalidFilter` (and hence
never inserts the name: the builder is returned unchanged only through
the error branch, before any insertion). -/
theorem C2_unknown_filter_name_rejected (api : Cov19api) (n v : String)
    (h : Filters.to_vec.contains n = false) :
    api.set_filter_string n v =
      Except.error { kind := ApiErrorKind.InvalidFilter, msg := Cov19api.invalidFilterMsg } := by
  have h2 : n ∉ Filters.to_vec := by simpa using h
  simp [Cov19api.set_filter_string, h2]

/-- Witness for C2 at the concrete input name "foo", value "bar". -/
theorem C2_unknown_filter_name_rejected_witness :
    Filters.to_vec.contains "foo" = false ∧
    Cov19api.new.set_filter_string "foo" "bar" =
      Except.error { kind := ApiErrorKind.InvalidFilter, msg := Cov19api.invalidFilterMsg } :=
  ⟨by decide, C2_unknown_filter_name_rejected Cov19api.new "foo" "bar" (by decide)⟩

/-- Claim C3: `set_filter_string api "areaType" v` fails with
`InvalidFilterValue` when v is outside the AreaType closed set and
succeeds, inserting areaType -> v, when v is in the set. -/
theorem C3_areaType_value_check (api : Cov19api) (v : String) :
    (AreaType.to_vec.contains v = false →
      api.set_filter_string "areaType" v =
        Except.error
          { kind := ApiErrorKind.InvalidFilterValue, msg := Cov19api.invalidAreaTypeMsg }) ∧
    (AreaType.to_vec.contains v = true →
      api.set_filter_string "areaType" v =
        Except.ok { api with filters := hmInsert api.filters "areaType" v }) := by
  have h1 : "areaType" ∈ Filters.to_vec := by decide
  constructor
  · intro h
    have h3 : v ∉ AreaType.to_vec := by simpa using h
    simp [Cov19api.set_filter_string, h1, h3]
  · intro h
    have h3 : v ∈ AreaType.to_vec := by simpa using h
    simp [Cov19api.set_filter_string, h1, h3]

/-- Witness for C3: concrete rejection of "country" and acceptance of
"nation" on a fresh builder. -/
theorem C3_areaType_value_check_witness :
    (AreaType.to_vec.contains "country" = false ∧
      Cov19api.new.set_filter_string "areaType" "country" =
        Except.error
          { kind := ApiErrorKind.InvalidFilterValue, msg := Cov19api.invalidAreaTypeMsg }) ∧
    (AreaType.to_vec.contains "nation" = true ∧
      Cov19api.new.set_filter_string "areaType" "nation" =
        Except.ok { Cov19api.new with
          filters := hmInsert Cov19api.new.filters "areaType" "nation" }) :=
  ⟨⟨by decide, (C3_areaType_value_check Cov19api.new "country").1 (by decide)⟩,
   ⟨by decide, (C3_areaType_value_check Cov19api.new "nation").2 (by decide)⟩⟩

/-- Claim C4: `set_structure_string_rename` fails with `InvalidStructure`
for every field name outside the Structures closed set; for a valid
field name it succeeds, and the default-alias entry point
`set_structure_string` stores the field name itself as the alias. -/
theorem C4_structure_field_validation (api : Cov19api) (field a : String) :
    (Structures.to_vec.contains field = false →
      api.set_structure_string_rename field a =
        Except.error
          { kind := ApiErrorKind.InvalidStructure, msg := Cov19api.invalidStructureMsg }) ∧
    (Structures.to_vec.contains field = true →
      api.set_structure_string_rename field a =
        Except.ok { api with structureMap := hmInsert api.structureMap field a } ∧
      hmLookup (api.set_structure_string field).structureMap field = some field) := by
  constructor
  · intro h
    have h3 : field ∉ Structures.to_vec := by simpa using h
    simp [Cov19api.set_structure_string_rename, h3]
  · intro h
    have h3 : field ∈ Structures.to_vec := by simpa using h
    constructor
    · simp [Cov19api.set_structure_string_rename, h3]
    · simp [Cov19api.set_structure_string, Cov19api.set_structure_string_rename, h3,
        hmLookup_hmInsert_self]

/-- Witness for C4: rejection of "totallyUnknownField" and acceptance of
"maleCases" (with default alias equal to the field name). -/
theorem C4_structure_field_validation_witness :
    (Structures.to_vec.contains "totallyUnknownField" = false ∧
      Cov19api.new.set_structure_string_rename "totallyUnknownField" "x" =
        Except.error
          { kind := ApiErrorKind.InvalidStructure, msg := Cov19api.invalidStructureMsg }) ∧
    (Structures.to_vec.contains "maleCases" = true ∧
      hmLookup (Cov19api.new.set_structure_string "maleCases").structureMap "maleCases" =
        some "maleCases") :=
  ⟨⟨by decide, (C4_structure_field_validation Cov19api.new "totallyUnknownField" "x").1
      (by decide)⟩,
   ⟨by decide, ((C4_structure_field_validation Cov19api.new "maleCases" "x").2 (by decide)).2⟩⟩

/-- Claim C5: with FilterSet \x7bareaType -> nation, areaName -> england\x7d
(both iteration orders) and StructureSet \x7bmaleCases -> maleCases\x7d, the
serialized URL is the endpoint, a `?filters=` segment with the two pairs
joined by `;` and no trailing separator, then `&structure=...` (leading
`&` because filters was non-empty), then the exact suffix
`&format=json&page=1`. -/
theorem C5_round_trip_url :
    buildUrl [("areaType", "nation"), ("areaName", "england")] [("maleCases", "maleCases")] =
      ENDPOINT ++ "?filters=areaType=nation;areaName=england"
        ++ "&structure=\x7b\"maleCases\":\"maleCases\"\x7d" ++ "&format=json&page=1" ∧
    buildUrl [("areaName", "england"), ("areaType", "nation")] [("maleCases", "maleCases")] =
      ENDPOINT ++ "?filters=areaName=england;areaType=nation"
        ++ "&structure=\x7b\"maleCases\":\"maleCases\"\x7d" ++ "&format=json&page=1" :=
  ⟨rfl, rfl⟩

/-- Claim C6: after `clear()` both maps are empty and the serialized URL
is exactly the endpoint followed by `&format=json&page=1`, with no
filters or structure segment. -/
theorem C6_clear_then_serialize (api : Cov19api) :
    buildUrl (api.clear).filters (api.clear).structureMap =
      ENDPOINT ++ "&format=json&page=1" := rfl

/-- Claim C7: every reachable builder state satisfies the invariant:
filter keys lie in the Filters closed set, structure keys in the
Structures closed set, and the value under areaType, if present, in the
AreaType closed set. -/
theorem C7_reachable_state_invariant (api : Cov19api) (h : Reachable api) : builderInv api := by
  induction h with
  | base =>
    refine ⟨?_, ?_, ?_⟩ <;> simp [Cov19api.new, hmLookup]
  | step api2 o hr ih => exact builderInv_applyOp api2 o ih

/-- Witness for C7: the invariant holds of the concrete state reached by
one `set_filter_string "areaType" "nation"` step from a fresh builder. -/
theorem C7_reachable_state_invariant_witness :
    builderInv (applyOp Cov19api.new (Op.setFilterString "areaType" "nation")) :=
  C7_reachable_state_invariant _ (Reachable.step Cov19api.new _ Reachable.base)

set_option maxRecDepth 10000

theorem string_toList_append (a b : String) : (a ++ b).toList = a.toList ++ b.toList := by
  simp [String.toList, String.data_append]

theorem infix_foldl_of_infix (l : List String) (init x sep : String)
    (h : List.IsInfix x.toList init.toList) :
    List.IsInfix x.toList (l.foldl (fun acc s => acc ++ s ++ sep) init).toList := by
  induction l generalizing init with
  | nil => exact h
  | cons hd tl ih =>
    simp only [List.foldl_cons]
    apply ih
    refine h.trans ?_
    rw [string_toList_append, string_toList_append, List.append_assoc]
    exact (List.prefix_append _ _).isInfix

theorem infix_foldl_of_mem (l : List String) (init sep x : String) (h : x ∈ l) :
    List.IsInfix x.toList (l.foldl (fun acc s => acc ++ s ++ sep) init).toList := by
  induction h generalizing init with
  | head as =>
    simp only [List.foldl_cons]
    apply infix_foldl_of_infix
    rw [string_toList_append, string_toList_append]
    exact List.infix_append _ _ _
  | tail b hb ih =>
    simp only [List.foldl_cons]
    exact ih _

theorem structures_to_string_contains (x : String) (h : x ∈ Structures.to_vec) :
    List.IsInfix x.toList Structures.to_string.toList := by
  have h2 := infix_foldl_of_mem (Structures.iterList.map Structures.debugFmt) "" "\n" x h
  rw [List.foldl_map] at h2
  exact h2

/-- Claim C8: `set_filter("areaType", "nation")` twice in a row succeeds
both times and leaves the filter map with exactly one entry for key
areaType, carrying value nation — the second call overwrites instead of
duplicating.  The hypothesis states that the starting map holds at most
one areaType entry, which is true of every map the builder can build
(keys stay unique under hmInsert). -/
theorem C8_set_filter_idempotent (api : Cov19api)
    (h : countKey api.filters "areaType" ≤ 1) :
    api.set_filter_string "areaType" "nation" =
      Except.ok { api with filters := hmInsert api.filters "areaType" "nation" } ∧
    Cov19api.set_filter_string
        { api with filters := hmInsert api.filters "areaType" "nation" }
        "areaType" "nation" =
      Except.ok { api with
        filters := hmInsert (hmInsert api.filters "areaType" "nation") "areaType" "nation" } ∧
    countKey (hmInsert (hmInsert api.filters "areaType" "nation") "areaType" "nation")
        "areaType" = 1 ∧
    hmLookup (hmInsert (hmInsert api.filters "areaType" "nation") "areaType" "nation")
        "areaType" = some "nation" := by
  have ha : "areaType" ∈ Filters.to_vec := by decide
  have hn : "nation" ∈ AreaType.to_vec := by decide
  refine ⟨?_, ?_, ?_, ?_⟩
  · simp [Cov19api.set_filter_string, ha, hn]
  · simp [Cov19api.set_filter_string, ha, hn]
  · exact countKey_hmInsert _ _ _ (countKey_hmInsert _ _ _ h).le
  · exact hmLookup_hmInsert_self _ _ _

/-- Witness for C8 on a fresh builder. -/
theorem C8_set_filter_idempotent_witness :
    countKey Cov19api.new.filters "areaType" ≤ 1 ∧
    countKey (hmInsert (hmInsert Cov19api.new.filters "areaType" "nation") "areaType" "nation")
        "areaType" = 1 ∧
    hmLookup (hmInsert (hmInsert Cov19api.new.filters "areaType" "nation") "areaType" "nation")
        "areaType" = some "nation" :=
  ⟨by decide, (C8_set_filter_idempotent Cov19api.new (by decide)).2.2.1,
    (C8_set_filter_idempotent Cov19api.new (by decide)).2.2.2⟩

/-- Counterexample for C9 as stated: not every validation error message
enumerates the full set of legal alternatives for the rejected input.
The date error message names only the expected format.  Concretely, the
code (whose date check is inverted, see C1) accepts the value "x" for
the date filter, yet the character "x" does not even occur in the
message of the error returned for the rejected value "2020-09-12", so
that message cannot enumerate the values the call would have accepted. -/
theorem C9_date_message_no_enumeration :
    Cov19api.new.set_filter_string "date" "2020-09-12" =
      Except.error { kind := ApiErrorKind.InvalidFilterValue, msg := Cov19api.invalidDateMsg } ∧
    Cov19api.new.set_filter_string "date" "x" =
      Except.ok { filters := [("date", "x")], structureMap := [] } ∧
    ¬ List.IsInfix "x".toList Cov19api.invalidDateMsg.toList :=
  ⟨rfl, rfl, by decide⟩

/-- Claim C9 (amended): the InvalidFilter, areaType InvalidFilterValue
and InvalidStructure error messages each contain every member of the
corresponding closed set (concatenated with no separator for filter
names and area types, newline-terminated for structure names); the date
InvalidFilterValue message instead names only the format YYYY-MM-DD.
In particular, `set_filter("region", "x")` fails with InvalidFilter and
the alternatives portion of its message is exactly the concatenation
areaTypeareaNameareaCodedate of the four filter names and nothing else. -/
theorem C9_messages_enumerate_alternatives (api : Cov19api) (n v s a : String)
    (h1 : Filters.to_vec.contains n = false)
    (h2 : AreaType.to_vec.contains v = false)
    (h3 : Structures.to_vec.contains s = false) :
    api.set_filter_string n v =
      Except.error { kind := ApiErrorKind.InvalidFilter, msg := Cov19api.invalidFilterMsg } ∧
    api.set_filter_string "areaType" v =
      Except.error
        { kind := ApiErrorKind.InvalidFilterValue, msg := Cov19api.invalidAreaTypeMsg } ∧
    api.set_structure_string_rename s a =
      Except.error
        { kind := ApiErrorKind.InvalidStructure, msg := Cov19api.invalidStructureMsg } ∧
    (∀ x ∈ Filters.to_vec, List.IsInfix x.toList Cov19api.invalidFilterMsg.toList) ∧
    (∀ x ∈ AreaType.to_vec, List.IsInfix x.toList Cov19api.invalidAreaTypeMsg.toList) ∧
    (∀ x ∈ Structures.to_vec, List.IsInfix x.toList Cov19api.invalidStructureMsg.toList) ∧
    api.set_filter_string "region" "x" =
      Except.error { kind := ApiErrorKind.InvalidFilter, msg := Cov19api.invalidFilterMsg } ∧
    Cov19api.invalidFilterMsg =
      "Invalid filter name provided!\nNeeds to be one of: "
        ++ "areaType" ++ "areaName" ++ "areaCode" ++ "date" := by
  have hn : n ∉ Filters.to_vec := by simpa using h1
  have hv : v ∉ AreaType.to_vec := by simpa using h2
  have hs : s ∉ Structures.to_vec := by simpa using h3
  have hat : "areaType" ∈ Filters.to_vec := by decide
  have hreg : ("region" : String) ∉ Filters.to_vec := by decide
  refine ⟨?_, ?_, ?_, by decide, by decide, ?_, ?_, rfl⟩
  · simp [Cov19api.set_filter_string, hn]
  · simp [Cov19api.set_filter_string, hat, hv]
  · simp [Cov19api.set_structure_string_rename, hs]
  · intro x hx
    show List.IsInfix x.toList
      ("Invalid structure name provided!\nNeeds to be one of: " ++ Structures.to_string).toList
    rw [string_toList_append]
    exact (structures_to_string_contains x hx).trans (List.suffix_append _ _).isInfix
  · simp [Cov19api.set_filter_string, hreg]

/-- Witness for C9 (amended) at concrete inputs. -/
theorem C9_messages_enumerate_alternatives_witness :
    Filters.to_vec.contains "aaa" = false ∧
    AreaType.to_vec.contains "vvv" = false ∧
    Structures.to_vec.contains "sss" = false ∧
    (∀ x ∈ Structures.to_vec, List.IsInfix x.toList Cov19api.invalidStructureMsg.toList) :=
  ⟨by decide, by decide, by decide,
    (C9_messages_enumerate_alternatives Cov19api.new "aaa" "vvv" "sss" "als"
      (by decide) (by decide) (by decide)).2.2.2.2.2.1⟩

/-- Claim C10: the default-alias setter `set_structure_string` discards
the validation result — its Rust return type is unit, so for an invalid
field name no error is surfaced to the caller and the builder is left
unchanged; only `set_structure_string_rename` reports InvalidStructure. -/
theorem C10_default_alias_discards_error (api : Cov19api) (n : String)
    (h : Structures.to_vec.contains n = false) :
    api.set_structure_string n = api ∧
    api.set_structure_string_rename n n =
      Except.error
        { kind := ApiErrorKind.InvalidStructure, msg := Cov19api.invalidStructureMsg } := by
  have h2 : n ∉ Structures.to_vec := by simpa using h
  constructor
  · simp [Cov19api.set_structure_string, Cov19api.set_structure_string_rename, h2]
  · simp [Cov19api.set_structure_string_rename, h2]

/-- Witness for C10 at the concrete field name "notAField". -/
theorem C10_default_alias_discards_error_witness :
    Structures.to_vec.contains "notAField" = false ∧
    Cov19api.new.set_structure_string "notAField" = Cov19api.new :=
  ⟨by decide, (C10_default_alias_discards_error Cov19api.new "notAField" (by decide)).1⟩
